import Mathlib

/-!
Verification development for the AsaExchange Telegram-bot core
(event bus, channel-as-queue adapter, update classifier/routers,
registration conversation state machine, reviewer approval action).

Go code is shallowly embedded: Go strings become `GoStr` (`List Char`,
with `goLen` measuring UTF-8 byte length, which is what Go's `len` on a
string returns); fallible collaborators (the user repository, the
outbound photo send used by the queue adapter) are passed in as explicit
oracle values; every observable effect of a handler (outbound transport
calls, repository writes, bus publications, handler invocations by a
router) is recorded in an ordered trace of `Action`s.

Outbound transport sends whose error result the embedded code either
ignores or merely returns to its caller without branching are modelled
as unconditionally recorded trace actions.
-/

set_option maxHeartbeats 1000000

/-- A Go string, embedded as its sequence of characters (runes). -/
abbrev GoStr := List Char

/-- Go `len` on a string: the UTF-8 byte length. -/
def goLen (s : GoStr) : Nat := (s.map Char.utf8Size).sum

/-- Go `strings.Split(s, sep)` for a single-character separator
(the embedded code only ever splits on `"\n"` and `"_"`). -/
def goSplit (sep : Char) : GoStr → List GoStr
  | [] => [[]]
  | c :: cs =>
    match goSplit sep cs with
    | [] => [[]]
    | r :: rs => if c = sep then [] :: r :: rs else (c :: r) :: rs

/-- Go `strings.HasPrefix`. -/
def goHasPfx (p s : GoStr) : Bool := p.isPrefixOf s

/-- Go `strings.TrimPrefix`. -/
def goTrimPfx (s p : GoStr) : GoStr :=
  if p.isPrefixOf s then s.drop p.length else s

/-- Decimal rendering of an integer, as Go `fmt.Sprintf("%d", i)`. -/
def intToGoStr (i : Int) : GoStr := (toString i).data

/-- Lowercase hexadecimal digit (`0`-`9`, `a`-`f`). -/
def isLowerHexDigit (c : Char) : Bool :=
  c ∈ "0123456789abcdef".data

/-- Case-fold an ASCII uppercase hex digit to lowercase; other
characters are unchanged. -/
def hexToLower (c : Char) : Char :=
  match c with
  | 'A' => 'a' | 'B' => 'b' | 'C' => 'c'
  | 'D' => 'd' | 'E' => 'e' | 'F' => 'f'
  | c => c

/-- One position of the canonical UUID text format: positions 8, 13, 18
and 23 hold `-`; every other of the 36 positions holds a lowercase hex
digit. -/
def uuidPosOk (c : Char) (n : Nat) : Bool :=
  if n = 8 ∨ n = 13 ∨ n = 18 ∨ n = 23 then c = '-' else isLowerHexDigit c

/-- Checks the canonical 36-character UUID rendering starting at
position `n`. -/
def uuidCheckAux : GoStr → Nat → Bool
  | [], n => n = 36
  | c :: cs, n => decide (n < 36) && uuidPosOk c n && uuidCheckAux cs (n + 1)

/-- Canonical (lowercase, dashed, 36-character) UUID rendering. -/
def uuidCheck (s : GoStr) : Bool := uuidCheckAux s 0

/-- Modelled from the third-party `github.com/google/uuid` library
(not part of this repository's sources): a UUID, represented by its
canonical text rendering, which is what `uuid.UUID.String()` produces. -/
def UUID : Type := { s : GoStr // uuidCheck s = true }

instance : DecidableEq UUID := fun a b =>
  decidable_of_iff (a.val = b.val) Subtype.ext_iff.symm

/-- `uuid.UUID.String()`: the canonical lowercase rendering. -/
def UUID.toGoStr (u : UUID) : GoStr := u.val

/-- Modelled from the third-party `github.com/google/uuid` library's
`uuid.Parse`, restricted to the canonical 36-character form (hex digits
accepted in either case and folded to lowercase).  The library also
accepts `urn:uuid:`-prefixed, braced and 32-character undashed forms;
no caller in the embedded code ever produces those, since every parsed
string originates from `uuid.UUID.String()`. -/
def uuidParse (s : GoStr) : Option UUID :=
  let t := s.map hexToLower
  if h : uuidCheck t = true then some ⟨t, h⟩ else none

/-! ## Domain model (`internal/core/domain/user.go`) -/

/-- `domain.UserVerificationStatus`; the string values are `"pending"`,
`"level_1"` and `"rejected"`.  The specification's data model names the
`level_1` value "approved". -/
inductive UserVerificationStatus where
  | VerificationPending
  | VerificationLevel1
  | VerificationRejected
deriving DecidableEq

/-- `domain.UserState`, the conversation-state enum; the string values
are `"none"`, `"awaiting_first_name"`, ..., `"awaiting_policy_approval"`. -/
inductive UserState where
  | StateNone
  | StateAwaitingFirstName
  | StateAwaitingLastName
  | StateAwaitingPhoneNumber
  | StateAwaitingGovID
  | StateAwaitingLocation
  | StateAwaitingIdentityDoc
  | StateAwaitingPolicyApproval
deriving DecidableEq

/-- `domain.User`.  Nullable (`*string`) fields become `Option GoStr`.
The repository snapshot contains two revisions of this struct; the
revision the current handlers compile against names the identity-photo
reference field `IdentityDocRef` (an older sibling revision calls the
same field `GovernmentIDPhotoID`).  `CreatedAt`/`UpdatedAt` are never
read or written by the embedded code and are omitted. -/
structure User where
  ID : UUID
  TelegramID : Int
  FirstName : Option GoStr := none
  LastName : Option GoStr := none
  PhoneNumber : Option GoStr := none
  GovernmentID : Option GoStr := none
  LocationCountry : Option GoStr := none
  VerificationStatus : UserVerificationStatus
  State : UserState
  VerificationStrategy : Option GoStr := none
  IdentityDocRef : Option GoStr := none
  IsModerator : Bool := false
deriving DecidableEq

/-! ## Ports (`internal/core/ports`) -/

/-- `ports.ContactInfo`. -/
structure ContactInfo where
  PhoneNumber : GoStr
  UserID : Int
deriving DecidableEq

/-- `ports.PhotoInfo`. -/
structure PhotoInfo where
  FileID : GoStr
  FileSize : Int := 0
deriving DecidableEq

/-- `ports.Button`. -/
structure Button where
  Text : GoStr := []
  Data : GoStr := []
  URL : GoStr := []
  RequestContact : Bool := false
deriving DecidableEq

/-- `ports.ReplyMarkup`. -/
structure ReplyMarkup where
  Buttons : List (List Button) := []
  IsInline : Bool := false
deriving DecidableEq

/-- `ports.SendMessageParams`. -/
structure SendMessageParams where
  ChatID : Int := 0
  Text : GoStr := []
  ParseMode : GoStr := []
  ReplyMarkup : Option ReplyMarkup := none
  RemoveKeyboard : Bool := false
deriving DecidableEq

/-- `ports.EditMessageParams`. -/
structure EditMessageParams where
  ChatID : Int := 0
  MessageID : Int := 0
  Text : GoStr := []
  ParseMode : GoStr := []
  ReplyMarkup : Option ReplyMarkup := none
deriving DecidableEq

/-- `ports.AnswerCallbackParams`. -/
structure AnswerCallbackParams where
  CallbackQueryID : GoStr := []
  Text : GoStr := []
  ShowAlert : Bool := false
deriving DecidableEq

/-- `ports.SendPhotoParams`.  The declaring revision of `ports/bot.go`
is not in the snapshot; the fields are taken from its call sites
(`telegramQueue.Publish`, `ForwardingHandler.HandleEvent`,
`tgClient.SendPhoto`): chat target, file identifier, caption, parse
mode and optional reply markup. -/
structure SendPhotoParams where
  ChatID : Int := 0
  File : GoStr := []
  Caption : GoStr := []
  ParseMode : GoStr := []
  ReplyMarkup : Option ReplyMarkup := none
deriving DecidableEq

/-- `ports.EditMessageCaptionParams`.  The declaring revision of
`ports/bot.go` is not in the snapshot; the fields are taken from its
call sites (`approvalHandler.editMessage`). -/
structure EditMessageCaptionParams where
  ChatID : Int := 0
  MessageID : Int := 0
  Caption : GoStr := []
  ParseMode : GoStr := []
  ReplyMarkup : Option ReplyMarkup := none
deriving DecidableEq

/-- `ports.BotUpdate`, the canonical event produced by the update
classifiers. -/
structure BotUpdate where
  MessageID : Int := 0
  ChatID : Int := 0
  UserID : Int := 0
  Text : GoStr := []
  Command : GoStr := []
  CallbackQueryID : GoStr := []
  CallbackData : Option GoStr := none
  Contact : Option ContactInfo := none
  Photo : Option PhotoInfo := none
deriving DecidableEq

/-- `ports.NewVerificationEvent`. -/
structure NewVerificationEvent where
  UserID : UUID
  FileID : GoStr
  Caption : GoStr
deriving DecidableEq

/-! ## Message builder (`internal/bot/messages/builder.go`) -/

/-- `messages.NewBuilder(chatID)`: fresh params with the `MarkdownV2`
default parse mode. -/
def NewBuilder (chatID : Int) : SendMessageParams :=
  { ChatID := chatID, ParseMode := "MarkdownV2".data }

/-- `Builder.WithText`. -/
def WithText (b : SendMessageParams) (text : GoStr) : SendMessageParams :=
  { b with Text := text }

/-- `Builder.WithParseMode`. -/
def WithParseMode (b : SendMessageParams) (mode : GoStr) : SendMessageParams :=
  { b with ParseMode := mode }

/-- `Builder.WithRemoveKeyboard`. -/
def WithRemoveKeyboard (b : SendMessageParams) : SendMessageParams :=
  { b with RemoveKeyboard := true, ReplyMarkup := none }

/-- `Builder.WithContactButton`. -/
def WithContactButton (b : SendMessageParams) (text : GoStr) : SendMessageParams :=
  { b with RemoveKeyboard := false,
           ReplyMarkup := some { IsInline := false,
                                 Buttons := [[{ Text := text, RequestContact := true }]] } }

/-- `Builder.WithInlineButtons`. -/
def WithInlineButtons (b : SendMessageParams) (buttons : List (List Button)) :
    SendMessageParams :=
  { b with RemoveKeyboard := false,
           ReplyMarkup := some { IsInline := true, Buttons := buttons } }

/-- The row-chunking loop of `Builder.WithReplyButtons`: arranges the
flat list of button texts into rows of `columns` buttons (the last row
may be shorter).  With `columns = 0` the Go loop would panic on a
modulo by zero; every call site passes `2`, and the model widens rows
to at least one button so the function is total. -/
def replyButtonRows (columns : Nat) : List GoStr → List (List Button)
  | [] => []
  | t :: ts =>
    let chunk := max columns 1
    (((t :: ts).take chunk).map fun s => ({ Text := s } : Button)) ::
      replyButtonRows columns ((t :: ts).drop chunk)
  termination_by texts => texts.length
  decreasing_by
    simp [List.length_drop]

/-- `Builder.WithReplyButtons`. -/
def WithReplyButtons (b : SendMessageParams) (buttonTexts : List GoStr)
    (columns : Nat) : SendMessageParams :=
  { b with RemoveKeyboard := false,
           ReplyMarkup := some { IsInline := false,
                                 Buttons := replyButtonRows columns buttonTexts } }

/-! ## Raw transport updates (third-party
`github.com/go-telegram-bot-api/telegram-bot-api/v5`)

Only the fields the embedded code reads are modelled.  Optional
(pointer/slice) fields become `Option`/`List`. -/

/-- `tgbotapi.Chat` (the `ID` field only). -/
structure TgChat where
  ID : Int
deriving DecidableEq

/-- `tgbotapi.User` (the `ID` field only). -/
structure TgUser where
  ID : Int
deriving DecidableEq

/-- `tgbotapi.MessageEntity`.  The Go field `Type` is rendered
`EntityType` (`Type` is reserved in Lean). -/
structure TgMessageEntity where
  EntityType : GoStr
  Offset : Int := 0
  Length : Nat := 0
deriving DecidableEq

/-- `tgbotapi.PhotoSize` (the fields the embedded code reads). -/
structure TgPhotoSize where
  FileID : GoStr
  FileSize : Int := 0
deriving DecidableEq

/-- `tgbotapi.Contact` (the fields the embedded code reads). -/
structure TgContact where
  PhoneNumber : GoStr
  UserID : Int
deriving DecidableEq

/-- `tgbotapi.Message` (the fields the embedded code reads).  A `nil`
photo slice is the empty list. -/
structure TgMessage where
  MessageID : Int := 0
  From : Option TgUser := none
  Chat : TgChat
  Text : GoStr := []
  Entities : List TgMessageEntity := []
  Contact : Option TgContact := none
  Photo : List TgPhotoSize := []
  Caption : GoStr := []
deriving DecidableEq

/-- `tgbotapi.CallbackQuery`.  The routers dereference `cb.Message`
unconditionally, so it is embedded as a plain field. -/
structure TgCallbackQuery where
  ID : GoStr := []
  From : TgUser
  Message : TgMessage
  Data : GoStr := []
deriving DecidableEq

/-- `tgbotapi.Update` (the fields the embedded code reads). -/
structure TgUpdate where
  Message : Option TgMessage := none
  CallbackQuery : Option TgCallbackQuery := none
  ChannelPost : Option TgMessage := none
deriving DecidableEq

/-- `tgbotapi.Message.IsCommand` (third-party): the first entity is a
`bot_command` at offset 0. -/
def TgMessage.IsCommand (m : TgMessage) : Bool :=
  match m.Entities with
  | [] => false
  | e :: _ => decide (e.Offset = 0) && (e.EntityType = "bot_command".data)

/-- Byte-based `take` on a rune sequence (Go string slicing `s[:n]`),
valid when the cut falls on a rune boundary, which holds for the ASCII
command entities this is applied to. -/
def goTakeBytes (n : Nat) : GoStr → GoStr
  | [] => []
  | c :: cs => if 0 < n then c :: goTakeBytes (n - c.utf8Size) cs else []

/-- `tgbotapi.Message.Command` (third-party): for a command message,
`Text[1:entity.Length]` with any `@bot` suffix stripped; otherwise the
empty string. -/
def TgMessage.Command (m : TgMessage) : GoStr :=
  if m.IsCommand then
    match m.Entities with
    | [] => []
    | e :: _ => (goTakeBytes (e.Length - 1) (m.Text.drop 1)).takeWhile (· ≠ '@')
  else []

/-! ## Effect traces -/

/-- One observable effect of an embedded handler or router.  Fallible
repository writes record the oracle-determined outcome (`ok`);
`invokeCommand`/`invokeCallback`/`invokeMessage` record a router
dispatching to a registered handler plugin; `invokeQueueHandler`
records the queue adapter invoking its subscribed handler with a
reconstructed verification event. -/
inductive Effect where
  | sendMessage (p : SendMessageParams)
  | sendPhoto (p : SendPhotoParams) (res : Option Int)
  | editMessageText (p : EditMessageParams)
  | editMessageCaption (p : EditMessageCaptionParams)
  | answerCallback (p : AnswerCallbackParams)
  | createUser (u : User) (ok : Bool)
  | updateUser (u : User) (ok : Bool)
  | busPublish (topic : GoStr) (u : User)
  | invokeCommand (cmd : GoStr) (bu : BotUpdate)
  | invokeCallback (pfx : GoStr) (bu : BotUpdate) (usr : User)
  | invokeMessage (bu : BotUpdate) (usr : User)
  | invokeQueueHandler (ev : NewVerificationEvent)
deriving DecidableEq

/-- Did the trace persist anything (a successful repository write)? -/
def Effect.isPersist : Effect → Bool
  | .createUser _ true => true
  | .updateUser _ true => true
  | _ => false

/-- Did the trace dispatch to any registered handler plugin? -/
def Effect.isInvoke : Effect → Bool
  | .invokeCommand _ _ => true
  | .invokeCallback _ _ _ => true
  | .invokeMessage _ _ => true
  | _ => false

/-- Is the action an outbound response of any kind to the transport? -/
def Effect.isResponse : Effect → Bool
  | .sendMessage _ => true
  | .sendPhoto _ _ => true
  | .editMessageText _ => true
  | .editMessageCaption _ => true
  | .answerCallback _ => true
  | _ => false

/-! ## In-memory event bus (`internal/adapters/eventbus`, second half of
`internal/adapters/telegram/queue.go` in the snapshot) -/

/-- `ports.Event`'s payload (`interface{}`): the embedded code only
ever publishes raw transport updates or (on the moderator topics)
`domain.User` values; anything else is covered by `otherData`. -/
inductive BusData where
  | updateData (u : TgUpdate)
  | userData (u : User)
  | otherData
deriving DecidableEq

/-- `ports.Event`. -/
structure BusEvent where
  Topic : GoStr
  Data : BusData
deriving DecidableEq

/-- A bus subscriber (`ports.EventHandler`), abstracted to the
error-or-nil result it returns for a given event.  `none` is a `nil`
error, `some msg` an error. -/
def BusHandler : Type := BusEvent → Option GoStr

/-- The subscription table of `inMemoryEventBus` (topic → ordered
handler list), as an association list; `Subscribe` appends. -/
def BusSubs : Type := List (GoStr × List BusHandler)

/-- Go map lookup `b.subscribers[topic]` (`ok = false` becomes
`none`). -/
def busLookup (subs : BusSubs) (topic : GoStr) : Option (List BusHandler) :=
  (subs.find? fun p => p.1 = topic).map Prod.snd

/-- The outcome of `inMemoryEventBus.Publish`: the error returned to
the publisher, and the result of each subscribed handler's invocation
on the event, in subscription order.  The Go code launches every
handler in its own goroutine with a fresh background context and only
logs handler errors, so each handler runs regardless of the others'
results and nothing is propagated to the publisher. -/
structure PublishOutcome where
  publisherErr : Option GoStr
  handlerResults : List (Option GoStr)

/-- `inMemoryEventBus.Publish`: with no subscribers it logs a warning
and returns `nil`; otherwise it fires every handler with the event and
returns `nil`. -/
def busPublishRun (subs : BusSubs) (topic : GoStr) (data : BusData) :
    PublishOutcome :=
  match busLookup subs topic with
  | none => { publisherErr := none, handlerResults := [] }
  | some handlers =>
      { publisherErr := none,
        handlerResults := handlers.map fun h => h { Topic := topic, Data := data } }

/-- `inMemoryEventBus.Subscribe`: appends the handler to the topic's
list (creating the entry on first subscription). -/
def busSubscribe (subs : BusSubs) (topic : GoStr) (h : BusHandler) : BusSubs :=
  match subs with
  | [] => [(topic, [h])]
  | (t, hs) :: rest =>
    if t = topic then (t, hs ++ [h]) :: rest
    else (t, hs) :: busSubscribe rest topic h

/-! ## Queue adapter (`internal/adapters/telegram/queue.go`) -/

/-- `telegramQueue.Publish`: sends the photo with the event's caption
(plain parse mode) to the relay channel; `sendRes` is the outcome of
the fallible `customerBot.SendPhoto` call (`some messageID` on
success).  Returns the effect trace together with the opaque storage
reference — the stringified message identifier — or `none` on error. -/
def telegramQueuePublish (channelID : Int) (sendRes : Option Int)
    (ev : NewVerificationEvent) : List Effect × Option GoStr :=
  let params : SendPhotoParams :=
    { ChatID := channelID, File := ev.FileID, Caption := ev.Caption,
      ParseMode := [] }
  ([.sendPhoto params sendRes], sendRes.map intToGoStr)

/-- `telegramQueue.parseUserIDFromCaption`: split the caption into
lines, find the first line with the `UserID: ` marker, strip the marker
and parse the remainder as a UUID.  `none` covers both Go error
returns (no marker line, or `uuid.Parse` failure). -/
def parseUserIDFromCaption (caption : GoStr) : Option UUID :=
  match (goSplit '\n' caption).find? (fun line => goHasPfx ("UserID: ".data) line) with
  | none => none
  | some line => uuidParse (goTrimPfx line ("UserID: ".data))

/-- `telegramQueue.handleChannelPost` (the closure registered on the
`telegram:mod:channel_post` topic): filters to updates that carry a
channel post from the monitored channel with a photo, parses the actor
UUID out of the caption, and only then invokes the subscribed handler
with the reconstructed event.  The returned option is the event passed
to the handler (`none` means the handler was never invoked). -/
def handleChannelPost (channelID : Int) (data : BusData) :
    Option NewVerificationEvent :=
  match data with
  | .updateData update =>
    match update.ChannelPost with
    | none => none
    | some msg =>
      if msg.Chat.ID ≠ channelID then none
      else if msg.Photo = [] then none
      else
        match parseUserIDFromCaption msg.Caption with
        | none => none
        | some userID =>
          match msg.Photo.getLast? with
          | none => none
          | some bestPhoto =>
            some { UserID := userID, FileID := bestPhoto.FileID,
                   Caption := msg.Caption }
  | _ => none

/-! ## Registration state machine
(`internal/bot/customer/handlers/registration_handler.go`) -/

/-- `config.CountryConfig` (the fields the registration handler
reads). -/
structure CountryConfig where
  Title : GoStr
  Strategy : GoStr
deriving DecidableEq

/-- The registration handler's collaborators, with the outcomes of its
fallible calls supplied as oracles: `updateOk` is the result of the
(at most one) `userRepo.Update` call in a run, and `sendPhotoRes` the
result of the `SendPhoto` call inside `queue.Publish` (`some messageID`
on success).  Go iterates `countryStrategies` as a map in unspecified
order; the model fixes the association-list order. -/
structure RegEnv where
  countryStrategies : List (GoStr × CountryConfig) := []
  channelID : Int := 0
  sendPhotoRes : Option Int := none
  updateOk : Bool := true

/-- `registrationHandler.sendErrorMessage`: a plain-text generic
error. -/
def sendErrorMessageEff (chatID : Int) (message : GoStr) : Effect :=
  .sendMessage (WithParseMode (WithText (NewBuilder chatID) message) [])

/-- The compiled `phoneRegex` pattern from the source,
`^\+?[0-9]{9,15}$`: an optional leading `+` followed by 9 to 15 ASCII
digits. -/
def phoneRegexMatch (s : GoStr) : Bool :=
  let digits := fun (t : GoStr) =>
    t.all (fun c => ('0' ≤ c) && (c ≤ '9')) &&
      decide (9 ≤ t.length) && decide (t.length ≤ 15)
  match s with
  | '+' :: rest => digits rest
  | _ => digits s

/-- One optional caption line of `handleIdentityDoc`'s
`strings.Builder` block: `label ++ value ++ "\n"` when the field is
set, nothing otherwise. -/
def captionOptLine (label : GoStr) : Option GoStr → GoStr
  | none => []
  | some v => label ++ v ++ ['\n']

/-- The caption `handleIdentityDoc` renders for the relay channel:
a header line, the `UserID: <uuid>` line, then one line per populated
profile field. -/
def buildIdentityCaption (u : User) : GoStr :=
  "New User Verification".data ++ '\n' ::
    ("UserID: ".data ++ u.ID.toGoStr ++ '\n' ::
      (captionOptLine ("First Name: ".data) u.FirstName ++
       captionOptLine ("Last Name: ".data) u.LastName ++
       captionOptLine ("Phone: ".data) u.PhoneNumber ++
       captionOptLine ("Gov ID: ".data) u.GovernmentID ++
       captionOptLine ("Country: ".data) u.LocationCountry ++
       captionOptLine ("Strategy: ".data) u.VerificationStrategy))

/-- `registrationHandler.handleFirstName`.  Returns the in-memory user
record after the call (Go mutates it through a pointer) and the effect
trace.  Go dereferences `*user.FirstName`-style pointers on paths where
they are provably populated; the model renders those as `getD []`. -/
def handleFirstName (env : RegEnv) (update : BotUpdate) (user : User) :
    User × List Effect :=
  if update.Contact.isSome then
    (user, [.sendMessage (WithParseMode (WithText (NewBuilder update.ChatID)
      "Please reply with your First Name as text.".data) [])])
  else
    let firstName := update.Text
    if goLen firstName < 2 ∨ goLen firstName > 50 then
      (user, [.sendMessage (WithParseMode (WithText (NewBuilder update.ChatID)
        "Invalid first name. Please enter a name between 2 and 50 characters.".data) [])])
    else
      let user' := { user with FirstName := some firstName,
                               State := .StateAwaitingLastName }
      if env.updateOk then
        (user', [.updateUser user' true,
                 .sendMessage (WithText (NewBuilder update.ChatID)
                   "Thank you\\. Now, please reply with your *legal Last Name*\\.".data)])
      else
        (user', [.updateUser user' false,
                 sendErrorMessageEff update.ChatID "An internal error occurred.".data])

/-- `registrationHandler.handleLastName`. -/
def handleLastName (env : RegEnv) (update : BotUpdate) (user : User) :
    User × List Effect :=
  if update.Contact.isSome then
    (user, [.sendMessage (WithParseMode (WithText (NewBuilder update.ChatID)
      "Please reply with your Last Name as text.".data) [])])
  else
    let lastName := update.Text
    if goLen lastName < 2 ∨ goLen lastName > 50 then
      (user, [.sendMessage (WithParseMode (WithText (NewBuilder update.ChatID)
        "Invalid last name. Please enter a name between 2 and 50 characters.".data) [])])
    else
      let user' := { user with LastName := some lastName,
                               State := .StateAwaitingPhoneNumber }
      if env.updateOk then
        (user', [.updateUser user' true,
                 .sendMessage (WithContactButton (WithText (NewBuilder update.ChatID)
                   "Thank you\\. Now, please share your *Phone Number* by pressing the button below\\.".data)
                   "Share My Phone Number".data)])
      else
        (user', [.updateUser user' false,
                 sendErrorMessageEff update.ChatID "An internal error occurred.".data])

/-- `registrationHandler.handlePhoneNumber`. -/
def handlePhoneNumber (env : RegEnv) (update : BotUpdate) (user : User) :
    User × List Effect :=
  match update.Contact with
  | none =>
    (user, [.sendMessage (WithContactButton (WithText (NewBuilder update.ChatID)
      "Please press the *Share My Phone Number* button to continue\\.".data)
      "Share My Phone Number".data)])
  | some contact =>
    if contact.UserID ≠ update.UserID then
      (user, [.sendMessage (WithContactButton (WithText (NewBuilder update.ChatID)
        "You must share your *own* contact\\. Please press the button again\\.".data)
        "Share My Phone Number".data)])
    else
      let phoneNumber := contact.PhoneNumber
      if ¬ phoneRegexMatch phoneNumber then
        (user, [.sendMessage (WithParseMode (WithRemoveKeyboard (WithText
          (NewBuilder update.ChatID)
          "The phone number you shared has an invalid format. Please contact support.".data)) [])])
      else
        let user' := { user with PhoneNumber := some phoneNumber,
                                 State := .StateAwaitingGovID }
        if env.updateOk then
          (user', [.updateUser user' true,
                   .sendMessage (WithRemoveKeyboard (WithText (NewBuilder update.ChatID)
                     "Thank you\\. Finally, please reply with your *Government ID / National ID Number*\\.".data))])
        else
          (user', [.updateUser user' false,
                   sendErrorMessageEff update.ChatID "An internal error occurred.".data])

/-- `registrationHandler.handleGovID`. -/
def handleGovID (env : RegEnv) (update : BotUpdate) (user : User) :
    User × List Effect :=
  if update.Contact.isSome ∨ update.Photo.isSome then
    (user, [sendErrorMessageEff update.ChatID
      "Please reply with your Government ID as text.".data])
  else
    let govID := update.Text
    if goLen govID < 5 ∨ goLen govID > 50 then
      (user, [.sendMessage (WithText (NewBuilder update.ChatID)
        "Invalid ID format\\. Please reply with your *Government ID / National ID Number*\\.".data)])
    else
      let user' := { user with GovernmentID := some govID,
                               State := .StateAwaitingLocation }
      if env.updateOk then
        (user', [.updateUser user' true,
                 .sendMessage (WithReplyButtons (WithText (NewBuilder update.ChatID)
                   ("Thank you, ".data ++ user'.FirstName.getD [] ++
                    "\\.\n\nYour registration is almost complete\\. Please select your *Country of Residence* from the list below\\.".data))
                   (env.countryStrategies.map fun p => p.2.Title) 2)])
      else
        (user', [.updateUser user' false,
                 sendErrorMessageEff update.ChatID "An internal error occurred.".data])

/-- `registrationHandler.handleLocation`. -/
def handleLocation (env : RegEnv) (update : BotUpdate) (user : User) :
    User × List Effect :=
  let countryChoice := update.Text
  match env.countryStrategies.find? (fun p => p.2.Title = countryChoice) with
  | none =>
    (user, [.sendMessage (WithReplyButtons (WithText (NewBuilder update.ChatID)
      ("`".data ++ countryChoice ++
       "` is not a supported country\\. Please select one from the list\\.".data))
      (env.countryStrategies.map fun p => p.2.Title) 2)])
  | some (isoKey, countryConfig) =>
    let user' := { user with LocationCountry := some isoKey,
                             VerificationStrategy := some countryConfig.Strategy,
                             State := .StateAwaitingIdentityDoc }
    if env.updateOk then
      (user', [.updateUser user' true,
               .sendMessage (WithRemoveKeyboard (WithText (NewBuilder update.ChatID)
                 "Thank you\\. As the next step, please upload a *single, clear photo* of your Government ID or Passport\\.\n\nThis photo will be reviewed by an admin to verify your identity\\.".data))])
    else
      (user', [.updateUser user' false,
               sendErrorMessageEff update.ChatID "An internal error occurred.".data])

/-- The two inline policy buttons `handleIdentityDoc` and
`handlePolicyApproval` attach. -/
def policyButtons : List (List Button) :=
  [[{ Text := "✅ I Accept".data, Data := "policy_accept".data },
    { Text := "❌ I Decline".data, Data := "policy_decline".data }]]

/-- `registrationHandler.handleIdentityDoc`: on a photo, publish to
the verification queue first; only on publish success store the
returned opaque storage reference and advance to policy approval. -/
def handleIdentityDoc (env : RegEnv) (update : BotUpdate) (user : User) :
    User × List Effect :=
  match update.Photo with
  | none =>
    (user, [.sendMessage (WithText (NewBuilder update.ChatID)
      "Please upload a *photo* of your ID, not text.".data)])
  | some photo =>
    let event : NewVerificationEvent :=
      { UserID := user.ID, FileID := photo.FileID,
        Caption := buildIdentityCaption user }
    let pub := telegramQueuePublish env.channelID env.sendPhotoRes event
    match pub.2 with
    | none =>
      (user, pub.1 ++ [sendErrorMessageEff update.ChatID
        "An error occurred while submitting your ID.".data])
    | some storageRef =>
      let user' := { user with IdentityDocRef := some storageRef,
                               State := .StateAwaitingPolicyApproval }
      if env.updateOk then
        (user', pub.1 ++
          [.updateUser user' true,
           .sendMessage (WithInlineButtons (WithText (NewBuilder update.ChatID)
             "Please review our terms of service and privacy policy\\.\n\n[Link to Policy](https://example.com/terms)\n\nDo you accept these terms\\?".data)
             policyButtons)])
      else
        (user', pub.1 ++
          [.updateUser user' false,
           sendErrorMessageEff update.ChatID "An internal error occurred.".data])

/-- `registrationHandler.handlePolicyApproval` (text received while
buttons are expected: re-prompt only). -/
def handlePolicyApproval (update : BotUpdate) (user : User) :
    User × List Effect :=
  (user, [.sendMessage (WithInlineButtons (WithText (NewBuilder update.ChatID)
    "Please accept or decline the policy by pressing the buttons below\\.\n\n[Link to Policy](https://example.com/terms)\n\nDo you accept these terms\\?".data)
    policyButtons)])

/-- `registrationHandler.Handle`: the state-machine switch.  Unhandled
states log a warning and do nothing. -/
def registrationHandle (env : RegEnv) (update : BotUpdate) (user : User) :
    User × List Effect :=
  match user.State with
  | .StateAwaitingFirstName => handleFirstName env update user
  | .StateAwaitingLastName => handleLastName env update user
  | .StateAwaitingPhoneNumber => handlePhoneNumber env update user
  | .StateAwaitingGovID => handleGovID env update user
  | .StateAwaitingLocation => handleLocation env update user
  | .StateAwaitingIdentityDoc => handleIdentityDoc env update user
  | .StateAwaitingPolicyApproval => handlePolicyApproval update user
  | _ => (user, [])

/-! ## Reviewer approval action
(`internal/bot/moderator/handlers/approval_handler.go`) -/

/-- `approvalHandler.editMessage`: edit the reviewed post's caption to
plain text, removing the buttons. -/
def editMessageEff (update : BotUpdate) (text : GoStr) : Effect :=
  .editMessageCaption { ChatID := update.ChatID, MessageID := update.MessageID,
                        Caption := text, ParseMode := [], ReplyMarkup := none }

/-- `approvalHandler.Handle`.  `getByID` is the
`userRepo.GetByID` collaborator (`.error` for a repository failure),
`updateOk` the outcome of the (at most one) `userRepo.Update` call.
Go dereferences `*update.CallbackData` (never `nil` when a router
dispatches a callback) and `*user.FirstName`/`*user.LastName` in the
accept confirmation; the model renders those as `getD`. -/
def approvalHandle (getByID : UUID → Except Unit (Option User))
    (updateOk : Bool) (update : BotUpdate) (_adminUser : User) : List Effect :=
  let ans : Effect := .answerCallback { CallbackQueryID := update.CallbackQueryID }
  let parts := goSplit '_' (update.CallbackData.getD [])
  if parts.length ≠ 3 then [ans]
  else
    let action := parts.getD 1 []
    match uuidParse (parts.getD 2 []) with
    | none => [ans]
    | some userID =>
      match getByID userID with
      | .error _ => [ans, editMessageEff update "Error: Could not find user.".data]
      | .ok none => [ans, editMessageEff update "Error: Could not find user.".data]
      | .ok (some user) =>
        if action = "accept".data then
          let user' := { user with VerificationStatus := .VerificationLevel1,
                                   State := .StateNone }
          if updateOk then
            [ans, .updateUser user' true,
             .busPublish ("user:approved".data) user',
             editMessageEff update ("✅ User Approved: ".data ++
               user'.FirstName.getD [] ++ " ".data ++ user'.LastName.getD [])]
          else
            [ans, .updateUser user' false,
             editMessageEff update "Error: Could not update user.".data]
        else if action = "reject".data then
          let user' := { user with VerificationStatus := .VerificationRejected,
                                   State := .StateAwaitingFirstName,
                                   FirstName := none, LastName := none,
                                   PhoneNumber := none, GovernmentID := none,
                                   IdentityDocRef := none, LocationCountry := none,
                                   VerificationStrategy := none }
          if updateOk then
            [ans, .updateUser user' true,
             .busPublish ("user:rejected".data) user',
             editMessageEff update "❌ User Rejected".data]
          else
            [ans, .updateUser user' false,
             editMessageEff update "Error: Could not update user.".data]
        else [ans]

/-! ## `/start` command handler
(`internal/bot/customer/handlers/start_handler.go`) -/

/-- `startHandler.sendErrorMessage`. -/
def startErrorEff (chatID : Int) : Effect :=
  .sendMessage (WithParseMode (WithText (NewBuilder chatID)
    "An internal error occurred. Please try again later.".data) [])

/-- A plain builder send of `responseText` (the `if msg.Text == ""`
fallback at the end of `startHandler.Handle`). -/
def startTextEff (chatID : Int) (text : GoStr) : Effect :=
  .sendMessage (WithText (NewBuilder chatID) text)

/-- `startHandler.Handle`.  `fetch` is the result of
`userRepo.GetByTelegramID`; `newID` the UUID drawn by `uuid.New()` on
the new-user path; `createOk`/`updateOk` the outcomes of the
(at most one) repository write.  The embedded revision is the one the
claim cites; it iterates `countryStrategies` map keys for the location
re-prompt (`for title := range ...`), modelled in association-list
order, and clears the identity-photo reference field on the rejected
path (named `GovernmentIDPhotoID` there, `IdentityDocRef` in the
current struct revision — the same single field). -/
def startHandle (fetch : Except Unit (Option User)) (newID : UUID)
    (createOk updateOk : Bool)
    (countryStrategies : List (GoStr × CountryConfig))
    (update : BotUpdate) : List Effect :=
  match fetch with
  | .error _ => [startErrorEff update.ChatID]
  | .ok none =>
    let newUser : User :=
      { ID := newID, TelegramID := update.UserID,
        VerificationStatus := .VerificationPending,
        State := .StateAwaitingFirstName }
    if createOk then
      [.createUser newUser true,
       .sendMessage (WithRemoveKeyboard (WithText (NewBuilder update.ChatID)
         ("👋 Welcome to AsaExchange\\!\n\nTo use our service, you must first register an account\\.\n\n".data ++
          "Please reply with your *legal First Name* as it appears on your ID\\.".data)))]
    else
      [.createUser newUser false, startErrorEff update.ChatID]
  | .ok (some user) =>
    match user.VerificationStatus with
    | .VerificationPending =>
      match user.State with
      | .StateAwaitingFirstName =>
        [startTextEff update.ChatID
          "Please reply with your *legal First Name* as it appears on your ID\\.".data]
      | .StateAwaitingLastName =>
        [startTextEff update.ChatID
          "Please reply with your *legal Last Name* as it appears on your ID\\.".data]
      | .StateAwaitingPhoneNumber =>
        [.sendMessage (WithContactButton (WithText (NewBuilder update.ChatID)
          "Please share your *Phone Number* by pressing the button below\\.".data)
          "Share My Phone Number".data)]
      | .StateAwaitingGovID =>
        [startTextEff update.ChatID
          "Please reply with your *Government ID / National ID Number*\\.".data]
      | .StateAwaitingLocation =>
        [.sendMessage (WithReplyButtons (WithText (NewBuilder update.ChatID)
          "Please select your *Country of Residence* from the list\\.".data)
          (countryStrategies.map fun p => p.1) 2)]
      | .StateAwaitingIdentityDoc =>
        [startTextEff update.ChatID
          "Please upload a *single, clear photo* of your Government ID or Passport\\.".data]
      | .StateAwaitingPolicyApproval =>
        [startTextEff update.ChatID
          "Please review our terms of service and *accept or decline* the policy\\.".data]
      | _ =>
        match user.FirstName with
        | some fn =>
          [startTextEff update.ChatID
            ("Hello, ".data ++ fn ++
             "\\. Your account is still *pending verification*\\. Please wait for an admin to approve your identity\\.".data)]
        | none =>
          [startTextEff update.ChatID
            "Your account is still *pending verification*\\. Please wait\\.".data]
    | .VerificationRejected =>
      let user' := { user with State := .StateAwaitingFirstName,
                               VerificationStatus := .VerificationPending,
                               FirstName := none, LastName := none,
                               PhoneNumber := none, GovernmentID := none,
                               IdentityDocRef := none, LocationCountry := none }
      if updateOk then
        [.updateUser user' true,
         startTextEff update.ChatID
           "Your previous registration was rejected\\.\n\nYou may try again\\. Please reply with your *legal First Name*\\.".data]
      else
        [.updateUser user' false, startErrorEff update.ChatID]
    | .VerificationLevel1 =>
      [.sendMessage (WithRemoveKeyboard (WithText (NewBuilder update.ChatID)
        ("👋 Welcome back, ".data ++ user.FirstName.getD [] ++
         "\\! Use the menu to get started\\.".data)))]

/-! ## Update classifier and routers
(`internal/bot/customer/router.go`, `internal/bot/moderator/router.go`) -/

/-- `CustomerRouter.parseUpdate`: the applicant-pool update
classifier.  A callback query wins; otherwise a message of any kind is
normalized (command, text, contact and best-resolution photo all copied
over); anything else is unsupported (`none`).  Go dereferences
`msg.From.ID` (nil only for channel posts, which carry no `Message`);
the model renders it `getD 0`. -/
def customerParseUpdate (update : TgUpdate) : Option BotUpdate :=
  match update.CallbackQuery with
  | some cb =>
    some { MessageID := cb.Message.MessageID, ChatID := cb.Message.Chat.ID,
           UserID := cb.From.ID, CallbackQueryID := cb.ID,
           CallbackData := some cb.Data }
  | none =>
    match update.Message with
    | some msg =>
      let contactInfo : Option ContactInfo :=
        msg.Contact.map fun c => { PhoneNumber := c.PhoneNumber, UserID := c.UserID }
      let photoInfo : Option PhotoInfo :=
        msg.Photo.getLast?.map fun p => { FileID := p.FileID, FileSize := p.FileSize }
      some { MessageID := msg.MessageID, ChatID := msg.Chat.ID,
             UserID := (msg.From.map TgUser.ID).getD 0, Text := msg.Text,
             Command := msg.Command, Contact := contactInfo, Photo := photoInfo }
    | none => none

/-- `CustomerRouter.HandleUpdate`.  `cmds` are the registered command
names, `cbs` the registered callback-data markers (Go iterates the
handler map in unspecified order; the model fixes list order),
`hasMessageHandler` whether the single message handler is set, and
`fetch` the result of the one `userRepo.GetByTelegramID` call.
Dispatch to a registered plugin is recorded as an `invoke*` effect. -/
def customerHandleUpdate (cmds : List GoStr) (cbs : List GoStr)
    (hasMessageHandler : Bool) (fetch : Except Unit (Option User))
    (update : TgUpdate) : List Effect :=
  match customerParseUpdate update with
  | none => []
  | some botUpdate =>
    match fetch with
    | .error _ =>
      [.sendMessage { ChatID := botUpdate.ChatID,
                      Text := "An internal error occurred.".data }]
    | .ok userOpt =>
      if botUpdate.Command ≠ [] ∧ cmds.contains botUpdate.Command then
        [.invokeCommand botUpdate.Command botUpdate]
      else
        match userOpt with
        | none =>
          [.sendMessage (WithText (NewBuilder botUpdate.ChatID)
            "Please type /start to begin\\.".data)]
        | some user =>
          match botUpdate.CallbackData with
          | some d =>
            match cbs.find? (fun pfx => goHasPfx pfx d) with
            | some pfx => [.invokeCallback pfx botUpdate user]
            | none => []
          | none =>
            if hasMessageHandler then [.invokeMessage botUpdate user] else []

/-- `ModeratorRouter.parseUpdate`: like the applicant classifier but a
message carries only text and command (channel posts are ignored). -/
def moderatorParseUpdate (update : TgUpdate) : Option BotUpdate :=
  match update.CallbackQuery with
  | some cb =>
    some { MessageID := cb.Message.MessageID, ChatID := cb.Message.Chat.ID,
           UserID := cb.From.ID, CallbackQueryID := cb.ID,
           CallbackData := some cb.Data }
  | none =>
    match update.Message with
    | some msg =>
      some { MessageID := msg.MessageID, ChatID := msg.Chat.ID,
             UserID := (msg.From.map TgUser.ID).getD 0, Text := msg.Text,
             Command := msg.Command }
    | none => none

/-- `ModeratorRouter.handleMessage` (subscribed on the
`telegram:mod:message` topic).  The error value it returns to the bus
is logged there and carries no effect; only the effect trace is
modelled. -/
def moderatorHandleMessage (cmds : List GoStr) (hasMessageHandler : Bool)
    (fetch : Except Unit (Option User)) (data : BusData) : List Effect :=
  match data with
  | .updateData update =>
    match update.Message with
    | none => []
    | some _ =>
      match moderatorParseUpdate update with
      | none => []
      | some botUpdate =>
        match fetch with
        | .error _ => []
        | .ok none => []
        | .ok (some user) =>
          if ¬ user.IsModerator then []
          else if botUpdate.Command ≠ [] ∧ cmds.contains botUpdate.Command then
            [.invokeCommand botUpdate.Command botUpdate]
          else if hasMessageHandler then
            [.invokeMessage botUpdate user]
          else []
  | _ => []

/-- `ModeratorRouter.handleCallbackQuery` (subscribed on the
`telegram:mod:callback_query` topic). -/
def moderatorHandleCallbackQuery (cbs : List GoStr)
    (fetch : Except Unit (Option User)) (data : BusData) : List Effect :=
  match data with
  | .updateData update =>
    match update.CallbackQuery with
    | none => []
    | some _ =>
      match moderatorParseUpdate update with
      | none => []
      | some botUpdate =>
        match fetch with
        | .error _ => []
        | .ok none => []
        | .ok (some user) =>
          if ¬ user.IsModerator then []
          else
            match botUpdate.CallbackData with
            | some d =>
              match cbs.find? (fun pfx => goHasPfx pfx d) with
              | some pfx => [.invokeCallback pfx botUpdate user]
              | none => []
            | none => []
  | _ => []

/-! ## Spec-side predicate and concrete exercise values -/

/-- Stated from the specification's words (for comparison with the
classifier): exactly one of command, callback payload, free-form
content (text, contact or photo) is populated on a canonical event. -/
def exactlyOnePopulated (bu : BotUpdate) : Bool :=
  let cmd := !(bu.Command.isEmpty)
  let cb := bu.CallbackData.isSome
  let freeform := !(bu.Text.isEmpty) || bu.Contact.isSome || bu.Photo.isSome
  (cmd && !cb && !freeform) || (!cmd && cb && !freeform) || (!cmd && !cb && freeform)

/-- A concrete canonical UUID rendering. -/
def demoUUID : UUID := ⟨"123e4567-e89b-12d3-a456-426614174000".data, by decide⟩

/-- A second, distinct canonical UUID rendering. -/
def demoUUID2 : UUID := ⟨"00000000-0000-4000-8000-000000000001".data, by decide⟩

/-- A concrete applicant record mid-registration. -/
def demoUser : User :=
  { ID := demoUUID, TelegramID := 77,
    FirstName := some "John".data, LastName := some "Smith".data,
    PhoneNumber := some "+491701234567".data,
    GovernmentID := some "AB12345".data,
    VerificationStatus := .VerificationPending,
    State := .StateAwaitingFirstName }

/-- A concrete raw update carrying both a bot command and a photo. -/
def c4update : TgUpdate :=
  { Message := some
      { MessageID := 1, From := some { ID := 7 }, Chat := { ID := 5 },
        Text := "/start".data,
        Entities := [{ EntityType := "bot_command".data, Offset := 0, Length := 6 }],
        Photo := [{ FileID := "photo1".data, FileSize := 9 }] } }

/-- The canonical event the applicant classifier produces for
`c4update`. -/
def c4event : BotUpdate :=
  { MessageID := 1, ChatID := 5, UserID := 7, Text := "/start".data,
    Command := "start".data,
    Photo := some { FileID := "photo1".data, FileSize := 9 } }

/-- A concrete plain text message. -/
def demoTextMsg : TgMessage :=
  { MessageID := 2, From := some { ID := 42 }, Chat := { ID := 42 },
    Text := "hello".data }

/-- A concrete plain text update from an unregistered sender. -/
def demoTextUpdate : TgUpdate := { Message := some demoTextMsg }

/-- A concrete callback-query update. -/
def demoCallbackUpdate : TgUpdate :=
  { CallbackQuery := some
      { ID := "cb1".data, From := { ID := 42 },
        Message := { MessageID := 3, Chat := { ID := 42 } },
        Data := "approval_accept_x".data } }

/-- The canonical event the applicant classifier produces for
`demoCallbackUpdate`. -/
def demoCbEvent : BotUpdate :=
  { MessageID := 3, ChatID := 42, UserID := 42,
    CallbackQueryID := "cb1".data,
    CallbackData := some ("approval_accept_x".data) }

/-- Two concrete bus subscribers: one failing, one succeeding. -/
def demoBusHandlers : List BusHandler :=
  [fun _ => some "handler failed".data, fun _ => none]

/-- A concrete subscription table with a single populated topic. -/
def demoBusSubs : BusSubs :=
  [("telegram:mod:channel_post".data, demoBusHandlers)]

/-- A concrete valid first-name submission. -/
def demoFirstNameUpdate : BotUpdate := { ChatID := 42, UserID := 77, Text := "John".data }

/-- A concrete too-short first-name submission. -/
def demoShortNameUpdate : BotUpdate := { ChatID := 42, UserID := 77, Text := "J".data }

/-- A concrete contact submission whose embedded handle (99) differs
from the sender's handle (77). -/
def demoForeignContactUpdate : BotUpdate :=
  { ChatID := 42, UserID := 77,
    Contact := some { PhoneNumber := "+4915112345678".data, UserID := 99 } }

/-- A concrete identity-document photo submission. -/
def demoPhotoUpdate : BotUpdate :=
  { ChatID := 42, UserID := 77, Photo := some { FileID := "file9".data, FileSize := 3 } }

/-- A concrete reviewer record. -/
def demoAdmin : User :=
  { ID := demoUUID2, TelegramID := 500,
    VerificationStatus := .VerificationLevel1, State := .StateNone,
    IsModerator := true }

/-- A concrete reviewer approve callback event targeting `demoUUID`. -/
def demoAccUpdate : BotUpdate :=
  { MessageID := 9, ChatID := 1000, UserID := 500,
    CallbackQueryID := "cbq1".data,
    CallbackData := some ("approval_accept_".data ++ demoUUID.toGoStr) }

/-- A concrete reviewer reject callback event targeting `demoUUID`. -/
def demoRejUpdate : BotUpdate :=
  { MessageID := 9, ChatID := 1000, UserID := 500,
    CallbackQueryID := "cbq2".data,
    CallbackData := some ("approval_reject_".data ++ demoUUID.toGoStr) }

/-- A concrete relay-channel post carrying `demoUser`'s verification
caption and a photo, in channel −100. -/
def demoChannelPost : TgMessage :=
  { MessageID := 50, Chat := { ID := -100 },
    Photo := [{ FileID := "modfile".data, FileSize := 4 }],
    Caption := buildIdentityCaption demoUser }

/-- The relay update wrapping `demoChannelPost`. -/
def demoChannelUpdate : TgUpdate := { ChannelPost := some demoChannelPost }

/-- The same post from a different channel identity (−200). -/
def demoWrongChannelUpdate : TgUpdate :=
  { ChannelPost := some { demoChannelPost with Chat := { ID := -200 } } }

/-- A photo post in the monitored channel whose caption has no
`UserID: ` line. -/
def demoChatterPost : TgMessage :=
  { MessageID := 51, Chat := { ID := -100 },
    Photo := [{ FileID := "x1".data, FileSize := 1 }],
    Caption := "hello\nworld".data }

/-- The relay update wrapping `demoChatterPost`. -/
def demoChatterUpdate : TgUpdate := { ChannelPost := some demoChatterPost }

/-! ## Helper lemmas -/

/-- `goSplit` always yields at least one field. -/
theorem goSplit_ne_nil (sep : Char) (l : GoStr) : goSplit sep l ≠ [] := by
  induction l with
  | nil => simp [goSplit]
  | cons c cs ih =>
    simp only [goSplit]
    rcases h : goSplit sep cs with _ | ⟨r, rs⟩
    · exact absurd h ih
    · by_cases hc : c = sep <;> simp [hc]

/-- Splitting a string with no separator occurrence yields the single
field. -/
theorem goSplit_no_sep {sep : Char} {xs : GoStr} (h : sep ∉ xs) :
    goSplit sep xs = [xs] := by
  induction xs with
  | nil => simp [goSplit]
  | cons c cs ih =>
    have hc : c ≠ sep := fun hx => h (hx ▸ List.mem_cons_self c cs)
    have ih' := ih (fun hx => h (List.mem_cons_of_mem c hx))
    simp [goSplit, ih', hc]

/-- Splitting peels off a separator-free leading field. -/
theorem goSplit_append {sep : Char} {xs : GoStr} (ys : GoStr) (h : sep ∉ xs) :
    goSplit sep (xs ++ sep :: ys) = xs :: goSplit sep ys := by
  induction xs with
  | nil =>
    simp only [List.nil_append, goSplit]
    rcases hy : goSplit sep ys with _ | ⟨r, rs⟩
    · exact absurd hy (goSplit_ne_nil sep ys)
    · simp
  | cons c cs ih =>
    have hc : c ≠ sep := fun hx => h (hx ▸ List.mem_cons_self c cs)
    have ih' := ih (fun hx => h (List.mem_cons_of_mem c hx))
    simp only [List.cons_append, goSplit, List.append_eq]
    rw [ih']
    simp [hc]

/-- Every character of a canonical UUID rendering is a lowercase hex
digit or a dash. -/
theorem uuid_chars_aux {s : GoStr} {n : Nat} (h : uuidCheckAux s n = true) :
    ∀ c ∈ s, isLowerHexDigit c = true ∨ c = '-' := by
  induction s generalizing n with
  | nil => intro c hc; cases hc
  | cons x xs ih =>
    simp only [uuidCheckAux, Bool.and_eq_true] at h
    intro c hc
    rcases List.mem_cons.mp hc with hx | hx
    · subst hx
      have hp := h.1.2
      unfold uuidPosOk at hp
      split at hp
      · exact Or.inr (by simpa using hp)
      · exact Or.inl hp
    · exact ih h.2 c hx

/-- Every character of a canonical UUID rendering is a lowercase hex
digit or a dash. -/
theorem uuid_chars {u : UUID} : ∀ c ∈ u.val, isLowerHexDigit c = true ∨ c = '-' :=
  uuid_chars_aux u.property

/-- `hexToLower` fixes lowercase hex digits and dashes. -/
theorem hexToLower_fix {c : Char} (h : isLowerHexDigit c = true ∨ c = '-') :
    hexToLower c = c := by
  rcases h with h | h
  · unfold isLowerHexDigit at h
    simp only [List.mem_cons, decide_eq_true_eq] at h
    rcases h with h | h | h | h | h | h | h | h | h | h | h | h | h | h | h | h | h <;>
      first
        | (subst h; rfl)
        | simp_all [String.data]
  · subst h; rfl

/-- A map by a function that fixes every element of a list is the
identity on that list. -/
theorem map_fix {α : Type} (f : α → α) :
    ∀ l : List α, (∀ c ∈ l, f c = c) → l.map f = l := by
  intro l
  induction l with
  | nil => intro _; rfl
  | cons x xs ih =>
    intro h
    simp only [List.map_cons]
    rw [h x (List.mem_cons_self x xs), ih fun c hc => h c (List.mem_cons_of_mem x hc)]

/-- Case-folding fixes a canonical UUID rendering. -/
theorem map_hexToLower_uuid (u : UUID) : u.val.map hexToLower = u.val :=
  map_fix hexToLower u.val fun c hc => hexToLower_fix (uuid_chars c hc)

/-- Round trip: parsing a canonical rendering recovers the UUID. -/
theorem uuidParse_toGoStr (u : UUID) : uuidParse u.toGoStr = some u := by
  unfold uuidParse UUID.toGoStr
  rw [map_hexToLower_uuid]
  simp [u.property]

/-- Neither the newline nor the underscore separator occurs in a
canonical UUID rendering. -/
theorem uuid_no_sep (u : UUID) : '\n' ∉ u.val ∧ '_' ∉ u.val := by
  constructor <;> intro h <;> rcases uuid_chars _ h with h | h <;> simp_all [isLowerHexDigit]

/-- The caption rendered by `handleIdentityDoc` parses back to the
actor's UUID: the `UserID: ` line is the first line carrying the
marker, and stripping the marker leaves the canonical rendering. -/
theorem parse_buildIdentityCaption (u : User) :
    parseUserIDFromCaption (buildIdentityCaption u) = some u.ID := by
  have hheader : '\n' ∉ "New User Verification".data := by decide
  have hkey : '\n' ∉ "UserID: ".data ++ u.ID.toGoStr := by
    intro h
    rcases List.mem_append.mp h with h | h
    · revert h; decide
    · exact (uuid_no_sep u.ID).1 h
  have hnot : goHasPfx ("UserID: ".data) ("New User Verification".data) = false := by
    decide
  unfold parseUserIDFromCaption buildIdentityCaption
  rw [goSplit_append _ hheader, goSplit_append _ hkey]
  rw [List.find?_cons_of_neg _ (by simp [hnot]),
      List.find?_cons_of_pos _ (by simp [goHasPfx, List.isPrefixOf])]
  simp only [Option.some.injEq]
  unfold goTrimPfx
  rw [if_pos (by simp [goHasPfx, List.isPrefixOf]), List.drop_left]
  exact uuidParse_toGoStr u.ID

/-! ## Claim theorems -/

/-- C6: event bus `Publish` with zero subscribers on the topic returns
success (no error to the publisher); with N subscribers every one of
the N handlers is invoked on the published event, each contributing its
own independent result, so a handler's returned error neither prevents
the invocation of the other N−1 handlers nor is propagated to the
publisher (`publisherErr` is `none` unconditionally). -/
theorem c6_event_bus_publish (subs : BusSubs) (topic : GoStr) (data : BusData) :
    (busPublishRun subs topic data).publisherErr = none ∧
    (busLookup subs topic = none →
      (busPublishRun subs topic data).handlerResults = []) ∧
    (∀ handlers, busLookup subs topic = some handlers →
      (busPublishRun subs topic data).handlerResults.length = handlers.length ∧
      ∀ i : Nat, (busPublishRun subs topic data).handlerResults.get? i =
        (handlers.get? i).map fun h => h { Topic := topic, Data := data }) := by
  refine ⟨?_, ?_, ?_⟩
  · unfold busPublishRun
    cases busLookup subs topic <;> rfl
  · intro h
    simp [busPublishRun, h]
  · intro handlers h
    refine ⟨by simp [busPublishRun, h], fun i => ?_⟩
    simp [busPublishRun, h]

/-- Witness for C6 at a concrete bus: one empty topic, one topic with a
failing and a succeeding handler. -/
theorem c6_event_bus_publish_witness :
    busLookup demoBusSubs ("nobody".data) = none ∧
    (busPublishRun demoBusSubs ("nobody".data) .otherData).handlerResults = [] ∧
    busLookup demoBusSubs ("telegram:mod:channel_post".data) = some demoBusHandlers ∧
    (busPublishRun demoBusSubs ("telegram:mod:channel_post".data) .otherData).publisherErr = none ∧
    (busPublishRun demoBusSubs ("telegram:mod:channel_post".data) .otherData).handlerResults.length = 2 :=
  ⟨rfl,
   (c6_event_bus_publish demoBusSubs ("nobody".data) .otherData).2.1 rfl,
   rfl,
   (c6_event_bus_publish demoBusSubs ("telegram:mod:channel_post".data) .otherData).1,
   ((c6_event_bus_publish demoBusSubs ("telegram:mod:channel_post".data) .otherData).2.2
       demoBusHandlers rfl).1.trans rfl⟩

/-- C4 (counterexample to the exclusivity half of the claim): a
message-shaped update with a bot-command text that also carries a photo
is accepted by the classifier, yet the canonical event has the command,
the free-form text and the photo populated at once, so "exactly one of
command, callback payload, free-form content" fails. -/
theorem c4_exclusivity_counterexample :
    customerParseUpdate c4update = some c4event ∧
    exactlyOnePopulated c4event = false := by
  exact ⟨by decide, by decide⟩

/-- C4 (amended): the classifier guarantees exclusivity only for
callback-classified updates — a callback event carries no command and
no free-form content — while message-classified events may populate
command and free-form content simultaneously; an update that is
neither a callback nor a message yields `supported = false`. -/
theorem c4_classifier_callback_exclusive (update : TgUpdate) :
    (∀ bu, customerParseUpdate update = some bu → bu.CallbackData.isSome →
      bu.Command = [] ∧ bu.Text = [] ∧ bu.Contact = none ∧ bu.Photo = none) ∧
    (update.CallbackQuery = none → update.Message = none →
      customerParseUpdate update = none) := by
  constructor
  · intro bu hbu hcb
    unfold customerParseUpdate at hbu
    cases hcq : update.CallbackQuery with
    | some cb =>
      rw [hcq] at hbu
      cases hbu
      exact ⟨rfl, rfl, rfl, rfl⟩
    | none =>
      rw [hcq] at hbu
      cases hm : update.Message with
      | some msg =>
        rw [hm] at hbu
        cases hbu
        simp at hcb
      | none =>
        rw [hm] at hbu
        cases hbu
  · intro h1 h2
    unfold customerParseUpdate
    rw [h1, h2]

/-- Witness for C4's amended statement at a concrete callback update
and at a concrete empty update. -/
theorem c4_classifier_callback_exclusive_witness :
    (customerParseUpdate demoCallbackUpdate = some demoCbEvent ∧
     demoCbEvent.CallbackData.isSome = true ∧
     (demoCbEvent.Command = [] ∧ demoCbEvent.Text = [] ∧
      demoCbEvent.Contact = none ∧ demoCbEvent.Photo = none)) ∧
    (({} : TgUpdate).CallbackQuery = none ∧ ({} : TgUpdate).Message = none ∧
     customerParseUpdate {} = none) :=
  ⟨⟨by decide, by decide,
    (c4_classifier_callback_exclusive demoCallbackUpdate).1 demoCbEvent
      (by decide) (by decide)⟩,
   ⟨rfl, rfl, (c4_classifier_callback_exclusive {}).2 rfl rfl⟩⟩

/-- C5: in the reviewer-facing pool, an event whose sender has no
actor record or whose record lacks the moderator flag produces an
empty effect trace from both bus-subscribed router entry points: no
command, callback or message handler is invoked and no response of any
kind is sent. -/
theorem c5_moderator_unauthorized_silent (cmds cbs : List GoStr)
    (hasMessageHandler : Bool) (fetch : Except Unit (Option User))
    (data : BusData)
    (hunauth : fetch = .ok none ∨
      ∃ u, fetch = .ok (some u) ∧ u.IsModerator = false) :
    moderatorHandleMessage cmds hasMessageHandler fetch data = [] ∧
    moderatorHandleCallbackQuery cbs fetch data = [] := by
  rcases data with up | u' | _
  · rcases hunauth with h | ⟨u, h, hmod⟩
    · subst h
      cases hcq : up.CallbackQuery <;> cases hm : up.Message <;>
        simp [moderatorHandleMessage, moderatorHandleCallbackQuery,
              moderatorParseUpdate, hcq, hm]
    · subst h
      cases hcq : up.CallbackQuery <;> cases hm : up.Message <;>
        simp [moderatorHandleMessage, moderatorHandleCallbackQuery,
              moderatorParseUpdate, hcq, hm, hmod]
  · exact ⟨rfl, rfl⟩
  · exact ⟨rfl, rfl⟩

/-- Witness for C5: a plain message from an unknown sender and a
callback from a registered non-moderator are both dropped silently. -/
theorem c5_moderator_unauthorized_silent_witness :
    moderatorHandleMessage (["review".data]) true (.ok none)
      (.updateData demoTextUpdate) = [] ∧
    moderatorHandleCallbackQuery (["approval_".data]) (.ok (some demoUser))
      (.updateData demoCallbackUpdate) = [] :=
  ⟨(c5_moderator_unauthorized_silent (["review".data]) [] true (.ok none)
      (.updateData demoTextUpdate) (Or.inl rfl)).1,
   (c5_moderator_unauthorized_silent [] (["approval_".data]) true
      (.ok (some demoUser)) (.updateData demoCallbackUpdate)
      (Or.inr ⟨demoUser, rfl, rfl⟩)).2⟩

/-- C9: a free-form applicant-pool event (message-shaped, not a
registered command) from a transport handle with no actor record gets
exactly the begin-registration prompt; nothing is invoked and nothing
is persisted. -/
theorem c9_unregistered_freeform_prompt (cmds cbs : List GoStr)
    (hasMessageHandler : Bool) (update : TgUpdate) (msg : TgMessage)
    (hcq : update.CallbackQuery = none) (hm : update.Message = some msg)
    (hcmd : msg.Command = [] ∨ msg.Command ∉ cmds) :
    customerHandleUpdate cmds cbs hasMessageHandler (.ok none) update =
      [.sendMessage (WithText (NewBuilder msg.Chat.ID)
        "Please type /start to begin\\.".data)] ∧
    ∀ a ∈ customerHandleUpdate cmds cbs hasMessageHandler (.ok none) update,
      a.isInvoke = false ∧ a.isPersist = false := by
  have htrace : customerHandleUpdate cmds cbs hasMessageHandler (.ok none) update =
      [.sendMessage (WithText (NewBuilder msg.Chat.ID)
        "Please type /start to begin\\.".data)] := by
    unfold customerHandleUpdate customerParseUpdate
    rw [hcq, hm]
    rcases hcmd with h | h <;> simp [h]
  refine ⟨htrace, ?_⟩
  intro a ha
  rw [htrace] at ha
  simp only [List.mem_singleton] at ha
  subst ha
  exact ⟨rfl, rfl⟩

/-- Witness for C9 at a concrete plain-text message from an unknown
sender. -/
theorem c9_unregistered_freeform_prompt_witness :
    customerHandleUpdate (["start".data]) (["policy_".data]) true (.ok none)
      demoTextUpdate =
      [.sendMessage (WithText (NewBuilder 42) "Please type /start to begin\\.".data)] :=
  (c9_unregistered_freeform_prompt (["start".data]) (["policy_".data]) true
    demoTextUpdate demoTextMsg rfl rfl (Or.inl rfl)).1

/-- C7: at `awaiting_first_name`, a text submission of valid length
(2–50, Go `len`, i.e. UTF-8 bytes) sets the first name, advances the
state to `awaiting_last_name` and persists the record before the next
prompt; an invalid length leaves the record untouched and sends only
the corrective message. -/
theorem c7_first_name_submission (env : RegEnv) (update : BotUpdate)
    (user : User)
    (hstate : user.State = .StateAwaitingFirstName)
    (hcontact : update.Contact = none)
    (hok : env.updateOk = true) :
    (2 ≤ goLen update.Text ∧ goLen update.Text ≤ 50 →
      (registrationHandle env update user).1 =
        { user with FirstName := some update.Text,
                    State := .StateAwaitingLastName } ∧
      (registrationHandle env update user).2 =
        [.updateUser { user with FirstName := some update.Text,
                                 State := .StateAwaitingLastName } true,
         .sendMessage (WithText (NewBuilder update.ChatID)
           "Thank you\\. Now, please reply with your *legal Last Name*\\.".data)]) ∧
    (goLen update.Text < 2 ∨ 50 < goLen update.Text →
      (registrationHandle env update user).1 = user ∧
      (registrationHandle env update user).2 =
        [.sendMessage (WithParseMode (WithText (NewBuilder update.ChatID)
          "Invalid first name. Please enter a name between 2 and 50 characters.".data) [])]) := by
  constructor
  · rintro ⟨h1, h2⟩
    have hcond : ¬ (goLen update.Text < 2 ∨ goLen update.Text > 50) := by omega
    simp [registrationHandle, hstate, handleFirstName, hcontact, hcond, hok]
  · intro h
    have hcond : goLen update.Text < 2 ∨ goLen update.Text > 50 := by omega
    simp [registrationHandle, hstate, handleFirstName, hcontact, hcond]

/-- Witness for C7: "John" advances `demoUser`, "J" is rejected with
the record unchanged. -/
theorem c7_first_name_submission_witness :
    ((registrationHandle {} demoFirstNameUpdate demoUser).1 =
      { demoUser with FirstName := some "John".data,
                      State := .StateAwaitingLastName } ∧
     (registrationHandle {} demoShortNameUpdate demoUser).1 = demoUser) :=
  ⟨((c7_first_name_submission {} demoFirstNameUpdate demoUser rfl rfl rfl).1
      ⟨by decide, by decide⟩).1,
   ((c7_first_name_submission {} demoShortNameUpdate demoUser rfl rfl rfl).2
      (Or.inl (by decide))).1⟩

/-- C8: at `awaiting_phone_number`, a contact payload whose embedded
handle differs from the sender's handle never advances the record —
the handler is a no-op on the actor for any number of repetitions —
and only the corrective re-prompt (with the contact button) is sent. -/
theorem c8_foreign_contact_idempotent (env : RegEnv) (update : BotUpdate)
    (user : User) (contact : ContactInfo)
    (hstate : user.State = .StateAwaitingPhoneNumber)
    (hcontact : update.Contact = some contact)
    (hforeign : contact.UserID ≠ update.UserID) :
    (∀ n : Nat, (fun u => (registrationHandle env update u).1)^[n] user = user) ∧
    (registrationHandle env update user).2 =
      [.sendMessage (WithContactButton (WithText (NewBuilder update.ChatID)
        "You must share your *own* contact\\. Please press the button again\\.".data)
        "Share My Phone Number".data)] := by
  have hstep : (registrationHandle env update user).1 = user ∧
      (registrationHandle env update user).2 =
        [.sendMessage (WithContactButton (WithText (NewBuilder update.ChatID)
          "You must share your *own* contact\\. Please press the button again\\.".data)
          "Share My Phone Number".data)] := by
    constructor <;>
      simp [registrationHandle, hstate, handlePhoneNumber, hcontact, hforeign]
  exact ⟨fun n => Function.iterate_fixed hstep.1 n, hstep.2⟩

/-- Witness for C8: a third-party contact (handle 99 ≠ 77) repeated
three times leaves `demoUser` (moved to the phone state) unchanged. -/
theorem c8_foreign_contact_idempotent_witness :
    (fun u => (registrationHandle {} demoForeignContactUpdate u).1)^[3]
      { demoUser with State := .StateAwaitingPhoneNumber } =
      { demoUser with State := .StateAwaitingPhoneNumber } :=
  (c8_foreign_contact_idempotent {} demoForeignContactUpdate
    { demoUser with State := .StateAwaitingPhoneNumber }
    { PhoneNumber := "+4915112345678".data, UserID := 99 }
    rfl rfl (by decide)).1 3

/-- The approval callback payload splits into its three fields. -/
theorem approval_parts (act : GoStr) (U : UUID) (hact : '_' ∉ act) :
    goSplit '_' ("approval".data ++ '_' :: (act ++ '_' :: U.toGoStr)) =
      ["approval".data, act, U.toGoStr] := by
  have h3 : goSplit '_' U.toGoStr = [U.toGoStr] :=
    goSplit_no_sep (uuid_no_sep U).2
  rw [goSplit_append _ (by decide), goSplit_append _ hact, h3]

/-- C2: on a pending target, the reviewer accept action rewrites only
the verification status (to `level_1`, the status the specification
calls "approved") and the conversation state, leaving every profile
field intact, while the reject action blanks every profile field and
restarts the conversation at `awaiting_first_name`; both persist the
rewritten record. -/
theorem c2_reviewer_approve_reject (getByID : UUID → Except Unit (Option User))
    (updAcc updRej : BotUpdate) (adminUser target : User) (U : UUID)
    (hget : getByID U = .ok (some target))
    (_hpending : target.VerificationStatus = .VerificationPending)
    (hacc : updAcc.CallbackData = some ("approval_accept_".data ++ U.toGoStr))
    (hrej : updRej.CallbackData = some ("approval_reject_".data ++ U.toGoStr)) :
    approvalHandle getByID true updAcc adminUser =
      [.answerCallback { CallbackQueryID := updAcc.CallbackQueryID },
       .updateUser { target with VerificationStatus := .VerificationLevel1,
                                 State := .StateNone } true,
       .busPublish ("user:approved".data)
         { target with VerificationStatus := .VerificationLevel1,
                       State := .StateNone },
       editMessageEff updAcc ("✅ User Approved: ".data ++
         target.FirstName.getD [] ++ " ".data ++ target.LastName.getD [])] ∧
    approvalHandle getByID true updRej adminUser =
      [.answerCallback { CallbackQueryID := updRej.CallbackQueryID },
       .updateUser { target with VerificationStatus := .VerificationRejected,
                                 State := .StateAwaitingFirstName,
                                 FirstName := none, LastName := none,
                                 PhoneNumber := none, GovernmentID := none,
                                 IdentityDocRef := none, LocationCountry := none,
                                 VerificationStrategy := none } true,
       .busPublish ("user:rejected".data)
         { target with VerificationStatus := .VerificationRejected,
                       State := .StateAwaitingFirstName,
                       FirstName := none, LastName := none,
                       PhoneNumber := none, GovernmentID := none,
                       IdentityDocRef := none, LocationCountry := none,
                       VerificationStrategy := none },
       editMessageEff updRej "❌ User Rejected".data] := by
  have hsplitAcc : goSplit '_' ("approval_accept_".data ++ U.toGoStr) =
      ["approval".data, "accept".data, U.toGoStr] := by
    have h : "approval_accept_".data ++ U.toGoStr =
        "approval".data ++ '_' :: ("accept".data ++ '_' :: U.toGoStr) := rfl
    rw [h, approval_parts _ _ (by decide)]
  have hsplitRej : goSplit '_' ("approval_reject_".data ++ U.toGoStr) =
      ["approval".data, "reject".data, U.toGoStr] := by
    have h : "approval_reject_".data ++ U.toGoStr =
        "approval".data ++ '_' :: ("reject".data ++ '_' :: U.toGoStr) := rfl
    rw [h, approval_parts _ _ (by decide)]
  constructor
  · unfold approvalHandle
    rw [hacc]
    simp only [Option.getD_some]
    rw [hsplitAcc]
    simp [uuidParse_toGoStr, hget]
  · unfold approvalHandle
    rw [hrej]
    simp only [Option.getD_some]
    rw [hsplitRej]
    simp [uuidParse_toGoStr, hget]

/-- Witness for C2 at a concrete pending target and concrete approve
and reject callbacks. -/
theorem c2_reviewer_approve_reject_witness :
    approvalHandle (fun _ => .ok (some demoUser)) true demoAccUpdate demoAdmin =
      [.answerCallback { CallbackQueryID := "cbq1".data },
       .updateUser { demoUser with VerificationStatus := .VerificationLevel1,
                                   State := .StateNone } true,
       .busPublish ("user:approved".data)
         { demoUser with VerificationStatus := .VerificationLevel1,
                         State := .StateNone },
       editMessageEff demoAccUpdate ("✅ User Approved: ".data ++
         "John".data ++ " ".data ++ "Smith".data)] ∧
    approvalHandle (fun _ => .ok (some demoUser)) true demoRejUpdate demoAdmin =
      [.answerCallback { CallbackQueryID := "cbq2".data },
       .updateUser { demoUser with VerificationStatus := .VerificationRejected,
                                   State := .StateAwaitingFirstName,
                                   FirstName := none, LastName := none,
                                   PhoneNumber := none, GovernmentID := none,
                                   IdentityDocRef := none, LocationCountry := none,
                                   VerificationStrategy := none } true,
       .busPublish ("user:rejected".data)
         { demoUser with VerificationStatus := .VerificationRejected,
                         State := .StateAwaitingFirstName,
                         FirstName := none, LastName := none,
                         PhoneNumber := none, GovernmentID := none,
                         IdentityDocRef := none, LocationCountry := none,
                         VerificationStrategy := none },
       editMessageEff demoRejUpdate "❌ User Rejected".data] :=
  c2_reviewer_approve_reject (fun _ => .ok (some demoUser)) demoAccUpdate
    demoRejUpdate demoAdmin demoUser demoUUID rfl rfl rfl rfl

/-- C10: `/start` from an actor whose verification status is
`rejected` resets the record for re-registration — status back to
`pending`, conversation state to `awaiting_first_name`, the six profile
fields (first name, last name, phone number, government ID,
identity-photo reference, location) cleared — and the record is
persisted (the `updateUser` effect) strictly before the
re-registration prompt is sent. -/
theorem c10_rejected_start_reset (fetch : Except Unit (Option User))
    (newID : UUID) (createOk : Bool)
    (strategies : List (GoStr × CountryConfig))
    (update : BotUpdate) (user : User)
    (hfetch : fetch = .ok (some user))
    (hrej : user.VerificationStatus = .VerificationRejected) :
    startHandle fetch newID createOk true strategies update =
      [.updateUser { user with State := .StateAwaitingFirstName,
                               VerificationStatus := .VerificationPending,
                               FirstName := none, LastName := none,
                               PhoneNumber := none, GovernmentID := none,
                               IdentityDocRef := none,
                               LocationCountry := none } true,
       startTextEff update.ChatID
         "Your previous registration was rejected\\.\n\nYou may try again\\. Please reply with your *legal First Name*\\.".data] := by
  subst hfetch
  simp [startHandle, hrej]

/-- Witness for C10 at a concrete rejected actor. -/
theorem c10_rejected_start_reset_witness :
    startHandle (.ok (some { demoUser with
        VerificationStatus := .VerificationRejected })) demoUUID2 false true []
      demoFirstNameUpdate =
      [.updateUser { demoUser with State := .StateAwaitingFirstName,
                                   VerificationStatus := .VerificationPending,
                                   FirstName := none, LastName := none,
                                   PhoneNumber := none, GovernmentID := none,
                                   IdentityDocRef := none,
                                   LocationCountry := none } true,
       startTextEff 42
         "Your previous registration was rejected\\.\n\nYou may try again\\. Please reply with your *legal First Name*\\.".data] :=
  c10_rejected_start_reset
    (.ok (some { demoUser with VerificationStatus := .VerificationRejected }))
    demoUUID2 false [] demoFirstNameUpdate
    { demoUser with VerificationStatus := .VerificationRejected } rfl rfl

/-- C3: at `awaiting_identity_doc`, a photo submission first invokes
the queue adapter's `Publish` (the relay `sendPhoto` heads the trace);
if the publish fails, the in-memory record is unchanged and the trace
contains no repository write — the actor stays in the
identity-document state — and only the generic submission error is
reported; if the publish succeeds, the returned opaque storage
reference is stored on the record, the state advances to
`awaiting_policy_approval`, and the record is persisted. -/
theorem c3_identity_doc_publish_gate (env : RegEnv) (update : BotUpdate)
    (user : User) (photo : PhotoInfo)
    (hstate : user.State = .StateAwaitingIdentityDoc)
    (hphoto : update.Photo = some photo) :
    (∃ rest, (registrationHandle env update user).2 =
      .sendPhoto { ChatID := env.channelID, File := photo.FileID,
                   Caption := buildIdentityCaption user, ParseMode := [] }
        env.sendPhotoRes :: rest) ∧
    (env.sendPhotoRes = none →
      (registrationHandle env update user).1 = user ∧
      (registrationHandle env update user).2 =
        [.sendPhoto { ChatID := env.channelID, File := photo.FileID,
                      Caption := buildIdentityCaption user, ParseMode := [] }
           none,
         sendErrorMessageEff update.ChatID
           "An error occurred while submitting your ID.".data]) ∧
    (∀ mid : Int, env.sendPhotoRes = some mid → env.updateOk = true →
      (registrationHandle env update user).1 =
        { user with IdentityDocRef := some (intToGoStr mid),
                    State := .StateAwaitingPolicyApproval } ∧
      (registrationHandle env update user).2 =
        [.sendPhoto { ChatID := env.channelID, File := photo.FileID,
                      Caption := buildIdentityCaption user, ParseMode := [] }
           (some mid),
         .updateUser { user with IdentityDocRef := some (intToGoStr mid),
                                 State := .StateAwaitingPolicyApproval } true,
         .sendMessage (WithInlineButtons (WithText (NewBuilder update.ChatID)
           "Please review our terms of service and privacy policy\\.\n\n[Link to Policy](https://example.com/terms)\n\nDo you accept these terms\\?".data)
           policyButtons)]) := by
  refine ⟨?_, ?_, ?_⟩
  · refine ⟨(registrationHandle env update user).2.tail, ?_⟩
    cases hres : env.sendPhotoRes <;> cases hok : env.updateOk <;>
      simp [registrationHandle, hstate, handleIdentityDoc, hphoto,
            telegramQueuePublish, hres, hok]
  · intro hres
    constructor <;>
      simp [registrationHandle, hstate, handleIdentityDoc, hphoto,
            telegramQueuePublish, hres]
  · intro mid hres hok
    constructor <;>
      simp [registrationHandle, hstate, handleIdentityDoc, hphoto,
            telegramQueuePublish, hres, hok]

/-- Witness for C3: a failing and a succeeding publish on a concrete
actor in the identity-document state. -/
theorem c3_identity_doc_publish_gate_witness :
    (registrationHandle { sendPhotoRes := none }
      demoPhotoUpdate { demoUser with State := .StateAwaitingIdentityDoc }).1 =
      { demoUser with State := .StateAwaitingIdentityDoc } ∧
    (registrationHandle { sendPhotoRes := some 1234, channelID := -100 }
      demoPhotoUpdate { demoUser with State := .StateAwaitingIdentityDoc }).1 =
      { demoUser with State := .StateAwaitingPolicyApproval,
                      IdentityDocRef := some "1234".data } :=
  ⟨((c3_identity_doc_publish_gate { sendPhotoRes := none } demoPhotoUpdate
      { demoUser with State := .StateAwaitingIdentityDoc }
      { FileID := "file9".data, FileSize := 3 } rfl rfl).2.1 rfl).1,
   ((c3_identity_doc_publish_gate { sendPhotoRes := some 1234, channelID := -100 }
      demoPhotoUpdate
      { demoUser with State := .StateAwaitingIdentityDoc }
      { FileID := "file9".data, FileSize := 3 } rfl rfl).2.2 1234 rfl rfl).1⟩

/-- C1: queue-adapter round trip.  (a) Publishing the verification
event the identity-document step builds for actor `u` succeeds with
the stringified message identifier as storage reference, and the
caption it sends to the relay channel contains the line
`UserID: <u's UUID>`.  (b) A relay post from the monitored channel
identity that carries a photo and that caption makes the channel-post
listener invoke the subscribed handler with a reconstructed event
whose `UserID` equals `u`'s UUID.  (c) A post from a different channel
identity, or one whose caption has no `UserID: ` line, never invokes
the handler. -/
theorem c1_queue_adapter_roundtrip (u : User) (photo : PhotoInfo)
    (channelID mid : Int) :
    (telegramQueuePublish channelID (some mid)
        { UserID := u.ID, FileID := photo.FileID,
          Caption := buildIdentityCaption u } =
      ([.sendPhoto { ChatID := channelID, File := photo.FileID,
                     Caption := buildIdentityCaption u, ParseMode := [] }
          (some mid)], some (intToGoStr mid)) ∧
      ("UserID: ".data ++ u.ID.toGoStr) ∈ goSplit '\n' (buildIdentityCaption u)) ∧
    (∀ update post, update.ChannelPost = some post →
      post.Chat.ID = channelID → post.Photo ≠ [] →
      post.Caption = buildIdentityCaption u →
      ∃ ev, handleChannelPost channelID (.updateData update) = some ev ∧
        ev.UserID = u.ID) ∧
    (∀ update post, update.ChannelPost = some post →
      (post.Chat.ID ≠ channelID →
        handleChannelPost channelID (.updateData update) = none) ∧
      ((∀ line ∈ goSplit '\n' post.Caption,
          goHasPfx ("UserID: ".data) line = false) →
        handleChannelPost channelID (.updateData update) = none)) := by
  have hheader : '\n' ∉ "New User Verification".data := by decide
  have hkey : '\n' ∉ "UserID: ".data ++ u.ID.toGoStr := by
    intro h
    rcases List.mem_append.mp h with h | h
    · revert h; decide
    · exact (uuid_no_sep u.ID).1 h
  refine ⟨⟨rfl, ?_⟩, ?_, ?_⟩
  · unfold buildIdentityCaption
    rw [goSplit_append _ hheader, goSplit_append _ hkey]
    simp
  · intro update post hpost hchat hph hcap
    simp only [handleChannelPost, hpost]
    rw [if_neg (by simp [hchat]), if_neg hph, hcap,
        parse_buildIdentityCaption]
    cases hl : post.Photo.getLast? with
    | none => exact absurd (List.getLast?_eq_none_iff.mp hl) hph
    | some best => exact ⟨_, rfl, rfl⟩
  · intro update post hpost
    constructor
    · intro hne
      simp only [handleChannelPost, hpost]
      rw [if_pos hne]
    · intro hno
      simp only [handleChannelPost, hpost]
      by_cases hch : post.Chat.ID ≠ channelID
      · rw [if_pos hch]
      · rw [if_neg hch]
        by_cases hempty : post.Photo = []
        · rw [if_pos hempty]
        · rw [if_neg hempty]
          have hparse : parseUserIDFromCaption post.Caption = none := by
            unfold parseUserIDFromCaption
            rw [List.find?_eq_none.mpr (fun line hl => by simp [hno line hl])]
          rw [hparse]

/-- Witness for C1 at the concrete actor `demoUser`, its caption fed
back from channel −100, the same post from channel −200, and a
chatter post with no `UserID: ` line. -/
theorem c1_queue_adapter_roundtrip_witness :
    (∃ ev, handleChannelPost (-100) (.updateData demoChannelUpdate) = some ev ∧
      ev.UserID = demoUser.ID) ∧
    handleChannelPost (-100) (.updateData demoWrongChannelUpdate) = none ∧
    handleChannelPost (-100) (.updateData demoChatterUpdate) = none :=
  ⟨(c1_queue_adapter_roundtrip demoUser { FileID := "modfile".data, FileSize := 4 }
      (-100) 555).2.1 demoChannelUpdate demoChannelPost rfl rfl
      (by decide) rfl,
   ((c1_queue_adapter_roundtrip demoUser { FileID := "modfile".data, FileSize := 4 }
      (-100) 555).2.2 demoWrongChannelUpdate
      { demoChannelPost with Chat := { ID := -200 } } rfl).1 (by decide),
   ((c1_queue_adapter_roundtrip demoUser { FileID := "x1".data, FileSize := 1 }
      (-100) 555).2.2 demoChatterUpdate demoChatterPost rfl).2 (by decide)⟩
